import Mathlib

/-!
Shallow embedding of `k8s_secret_header.go` (Traefik plugin
`traefik-k8s-secret-header`).

Modelling conventions:
* Time is modelled as `Int`, in nanoseconds, matching Go's `time.Duration`
  and `time.Time` arithmetic: `time.Since(t)` at read time `now` is
  `now - t`.  The zero value of `time.Time` (the initial `lastFetch` of a
  fresh cache) is modelled as `0`, and real read times are large positive
  integers, so `time.Since(zero)` is huge, as in Go.
* `time.Duration(config.CacheTTL) * time.Second` becomes
  `cacheTTL * 1000000000`.
* The network transport of `k8sClient.getSecret` is external to the
  program; `ServeHTTP` therefore takes the fetch result
  (`Except String k8sSecret`) as an explicit parameter, and the
  status-code check of `getSecret` is modelled on an explicit
  `HttpResponse` value.
* `newK8sClient` reads files and environment variables; its outcome is
  passed to `New` as an explicit `Except String Unit` parameter.
* The Go field `Namespace` is called `ns` here because `namespace` is a
  Lean keyword.
-/

/-- `Config` from the Go source (field `Namespace` renamed to `ns`). -/
structure Config where
  secretName : String
  secretKey : String
  headerName : String
  valuePrefix : String
  ns : String
  cacheTTL : Int
deriving DecidableEq, Repr

/-- `CreateConfig` from the Go source: zero-value config with the 300 s
default TTL. -/
def CreateConfig : Config :=
  { secretName := "", secretKey := "", headerName := "", valuePrefix := "",
    ns := "", cacheTTL := 300 }

/-- `k8sSecret` from the Go source: the Kubernetes Secret API response,
a map from key to base64-encoded value (modelled as an association
list). -/
structure k8sSecret where
  data : List (String × String)
deriving DecidableEq, Repr

/-- `secretCache` from the Go source.  The mutex only serialises access
and is invisible in a sequential embedding; `ttl` and `lastFetch` are in
nanoseconds. -/
structure secretCache where
  value : String
  lastFetch : Int
  ttl : Int
deriving DecidableEq, Repr

/-- `secretCache.get`: Go `if time.Since(c.lastFetch) > c.ttl { return "",
false }; return c.value, true`, with the read time `now` explicit. -/
def secretCache.get (c : secretCache) (now : Int) : String × Bool :=
  if now - c.lastFetch > c.ttl then ("", false)
  else (c.value, true)

/-- `secretCache.set`: Go `c.value = value; c.lastFetch = time.Now()`,
with the write time `now` explicit. -/
def secretCache.set (c : secretCache) (value : String) (now : Int) :
    secretCache :=
  { c with value := value, lastFetch := now }

/-- `HttpResponse`: the status code and body of the remote store's
response, as seen by `k8sClient.getSecret` after the transport call. -/
structure HttpResponse where
  statusCode : Nat
  body : String
deriving DecidableEq, Repr

/-- Outcome of the status check inside `k8sClient.getSecret`:
`statusError status body` models
`fmt.Errorf("kubernetes API returned status %d: %s", resp.StatusCode,
string(body))`, carrying the response status and body; `decodeBody body`
models falling through to `json.NewDecoder(resp.Body).Decode(&secret)`. -/
inductive GetSecretStep where
  | statusError : Nat → String → GetSecretStep
  | decodeBody : String → GetSecretStep
deriving DecidableEq, Repr

/-- The status check of `k8sClient.getSecret`: Go
`if resp.StatusCode != http.StatusOK { ... }` where `http.StatusOK`
is 200. -/
def getSecretStatusCheck (resp : HttpResponse) : GetSecretStep :=
  if resp.statusCode ≠ 200 then .statusError resp.statusCode resp.body
  else .decodeBody resp.body

/-- Index of a character in the standard base64 alphabet
(`A-Z a-z 0-9 + /`), as used by Go's `base64.StdEncoding`. -/
def b64Index (c : Char) : Option Nat :=
  if 'A' ≤ c ∧ c ≤ 'Z' then some (c.toNat - 65)
  else if 'a' ≤ c ∧ c ≤ 'z' then some (c.toNat - 97 + 26)
  else if '0' ≤ c ∧ c ≤ '9' then some (c.toNat - 48 + 52)
  else if c = '+' then some 62
  else if c = '/' then some 63
  else none

/-- Decode a padded base64 character stream into bytes, as Go's
`base64.StdEncoding.DecodeString` does: four-character quanta, `=`
padding only in the final quantum, invalid characters rejected. -/
def b64DecodeChars : List Char → Option (List Nat)
  | [] => some []
  | a :: b :: c :: d :: rest =>
    match b64Index a, b64Index b with
    | some ia, some ib =>
      if c = '=' then
        if d = '=' && rest.isEmpty then some [ia * 4 + ib / 16] else none
      else
        match b64Index c with
        | some ic =>
          if d = '=' then
            if rest.isEmpty then
              some [ia * 4 + ib / 16, (ib % 16) * 16 + ic / 4]
            else none
          else
            match b64Index d, b64DecodeChars rest with
            | some i4, some tail =>
              some ((ia * 4 + ib / 16) :: ((ib % 16) * 16 + ic / 4) ::
                    ((ic % 4) * 64 + i4) :: tail)
            | _, _ => none
        | none => none
    | _, _ => none
  | _ => none

/-- `base64.StdEncoding.DecodeString` followed by Go's
`string(decodedValue)`: newline characters are ignored by the decoder,
and the resulting bytes are carried in a Lean `String` one character per
byte. -/
def base64DecodeStd (s : String) : Option String :=
  match b64DecodeChars (s.data.filter fun c => !(c == '\n' || c == '\r')) with
  | none => none
  | some bytes => some (String.mk (bytes.map Char.ofNat))

/-- An HTTP request as the plugin sees it: its mutable header set. -/
structure Request where
  headers : List (String × String)
deriving DecidableEq, Repr

/-- `req.Header.Set(key, value)`: replace any previous value of `key`. -/
def setHeader (hs : List (String × String)) (key value : String) :
    List (String × String) :=
  (key, value) :: hs.filter fun p => p.1 != key

/-- `SecretHeader` from the Go source (the `next` handler and the
`k8sClient` are modelled via the `ServeHTTP` parameters). -/
structure SecretHeader where
  name : String
  config : Config
  cache : secretCache
deriving DecidableEq, Repr

/-- What one call to `ServeHTTP` does: either the request (with its
headers updated) was forwarded to the next handler, or an error response
was written. -/
inductive HttpOutcome where
  | forwarded : Request → HttpOutcome
  | errorResponse : Nat → String → HttpOutcome
deriving DecidableEq, Repr

/-- Observable result of one `ServeHTTP` call: the response outcome, the
cache state afterwards, how many remote fetches were issued and how many
times the next handler was invoked. -/
structure ServeResult where
  outcome : HttpOutcome
  cache : secretCache
  fetchCount : Nat
  nextCalls : Nat
deriving DecidableEq, Repr

/-- `SecretHeader.ServeHTTP` from the Go source.  `now` is the request
time; `fetchResult` is what `s.k8sClient.getSecret(...)` returns when
called (it is consulted only on the cache-miss path, and `fetchCount`
records whether it was).  `http.StatusInternalServerError` is 500 and
`http.Error` writes the given message. -/
def SecretHeader.ServeHTTP (s : SecretHeader) (now : Int)
    (fetchResult : Except String k8sSecret) (req : Request) : ServeResult :=
  match secretCache.get s.cache now with
  | (value, true) =>
    let headerValue := s.config.valuePrefix ++ value
    { outcome := .forwarded
        { headers := setHeader req.headers s.config.headerName headerValue },
      cache := s.cache, fetchCount := 0, nextCalls := 1 }
  | (_, false) =>
    match fetchResult with
    | .error _ =>
      { outcome := .errorResponse 500 "Internal Server Error",
        cache := s.cache, fetchCount := 1, nextCalls := 0 }
    | .ok secret =>
      match secret.data.lookup s.config.secretKey with
      | none =>
        { outcome := .errorResponse 500 "Internal Server Error",
          cache := s.cache, fetchCount := 1, nextCalls := 0 }
      | some encodedValue =>
        match base64DecodeStd encodedValue with
        | none =>
          { outcome := .errorResponse 500 "Internal Server Error",
            cache := s.cache, fetchCount := 1, nextCalls := 0 }
        | some value =>
          let newCache := secretCache.set s.cache value now
          { outcome := .forwarded
              { headers := setHeader req.headers s.config.headerName
                  (s.config.valuePrefix ++ value) },
            cache := newCache, fetchCount := 1, nextCalls := 1 }

/-- `New` from the Go source: construction-time validation, namespace
defaulting, then Kubernetes-client creation (whose outcome is the
explicit `clientResult`), then cache construction with
`ttl = CacheTTL * time.Second`. -/
def New (config : Config) (name : String)
    (clientResult : Except String Unit) : Except String SecretHeader :=
  if config.secretName = "" then .error "secretName cannot be empty"
  else if config.secretKey = "" then .error "secretKey cannot be empty"
  else if config.headerName = "" then .error "headerName cannot be empty"
  else
    let config := if config.ns = "" then { config with ns := "default" }
                  else config
    match clientResult with
    | .error e => .error ("failed to create Kubernetes client: " ++ e)
    | .ok _ =>
      .ok { name := name, config := config,
            cache := { value := "", lastFetch := 0,
                       ttl := config.cacheTTL * 1000000000 } }

/-- Spec-side characterisation of the cache-miss fetch pipeline of
`ServeHTTP`: `some v` iff the fetch succeeded, the configured key was
present and its value base64-decoded to `v`; `none` on any of the three
failures. -/
def fetchOutcome (cfg : Config) (fetchResult : Except String k8sSecret) :
    Option String :=
  match fetchResult with
  | .error _ => none
  | .ok secret =>
    match secret.data.lookup cfg.secretKey with
    | none => none
    | some encodedValue => base64DecodeStd encodedValue

/-- The value of header `hname` of the request forwarded to the next
handler, if the request was forwarded. -/
def servedHeader (r : ServeResult) (hname : String) : Option String :=
  match r.outcome with
  | .forwarded rq => rq.headers.lookup hname
  | .errorResponse _ _ => none

/-- Spec-side characterisation of the value a request is served with:
the cached value on a hit, the freshly fetched and decoded value on a
miss, `none` when the miss path fails. -/
def servedValue (s : SecretHeader) (now : Int)
    (fr : Except String k8sSecret) : Option String :=
  match secretCache.get s.cache now with
  | (value, true) => some value
  | (_, false) => fetchOutcome s.config fr

/-- A concrete configuration used by the witnesses: required fields set,
no prefix, default namespace, 300 s TTL. -/
def sampleConfig : Config :=
  { secretName := "mysecret", secretKey := "token",
    headerName := "X-Auth-Token", valuePrefix := "", ns := "default",
    cacheTTL := 300 }

/-- A concrete plugin instance used by the witnesses: fresh cache
(`lastFetch` at the zero time) with `ttl = 300 s` in nanoseconds. -/
def samplePlugin : SecretHeader :=
  { name := "k8s-secret-header", config := sampleConfig,
    cache := { value := "", lastFetch := 0, ttl := 300000000000 } }

/-- A concrete successful fetch used by the witnesses: the secret holds
`token = "dg=="`, the base64 encoding of `"v"`. -/
def sampleFetch : Except String k8sSecret :=
  .ok { data := [("token", "dg==")] }

/-! ## Helper lemmas shared by the claim theorems -/

theorem get_eq (c : secretCache) (now : Int) :
    secretCache.get c now =
      if now - c.lastFetch ≤ c.ttl then (c.value, true) else ("", false) := by
  unfold secretCache.get
  rcases le_or_lt (now - c.lastFetch) c.ttl with h | h
  · rw [if_neg (by omega), if_pos h]
  · rw [if_pos (by omega), if_neg (by omega)]

theorem get_of_found (c : secretCache) (now : Int)
    (h : now - c.lastFetch ≤ c.ttl) :
    secretCache.get c now = (c.value, true) := by
  rw [get_eq, if_pos h]

theorem get_of_expired (c : secretCache) (now : Int)
    (h : c.ttl < now - c.lastFetch) :
    secretCache.get c now = ("", false) := by
  rw [get_eq, if_neg (by omega)]

theorem get_snd_true_iff (c : secretCache) (now : Int) :
    (secretCache.get c now).2 = true ↔ now - c.lastFetch ≤ c.ttl := by
  rcases le_or_lt (now - c.lastFetch) c.ttl with h | h
  · rw [get_of_found c now h]
    simpa using h
  · rw [get_of_expired c now h]
    simpa using by omega

theorem serve_hit (s : SecretHeader) (now : Int)
    (fr : Except String k8sSecret) (req : Request)
    (h : now - s.cache.lastFetch ≤ s.cache.ttl) :
    SecretHeader.ServeHTTP s now fr req =
      { outcome := .forwarded
          { headers := setHeader req.headers s.config.headerName
              (s.config.valuePrefix ++ s.cache.value) },
        cache := s.cache, fetchCount := 0, nextCalls := 1 } := by
  unfold SecretHeader.ServeHTTP
  rw [get_of_found s.cache now h]

theorem serve_miss (s : SecretHeader) (now : Int)
    (fr : Except String k8sSecret) (req : Request)
    (h : s.cache.ttl < now - s.cache.lastFetch) :
    SecretHeader.ServeHTTP s now fr req =
      match fetchOutcome s.config fr with
      | none =>
        { outcome := .errorResponse 500 "Internal Server Error",
          cache := s.cache, fetchCount := 1, nextCalls := 0 }
      | some v =>
        { outcome := .forwarded
            { headers := setHeader req.headers s.config.headerName
                (s.config.valuePrefix ++ v) },
          cache := secretCache.set s.cache v now, fetchCount := 1,
          nextCalls := 1 } := by
  have hg := get_of_expired s.cache now h
  cases fr with
  | error e => simp [SecretHeader.ServeHTTP, fetchOutcome, hg]
  | ok secret =>
    cases hl : secret.data.lookup s.config.secretKey with
    | none => simp [SecretHeader.ServeHTTP, fetchOutcome, hg, hl]
    | some enc =>
      cases hd : base64DecodeStd enc with
      | none => simp [SecretHeader.ServeHTTP, fetchOutcome, hg, hl, hd]
      | some v => simp [SecretHeader.ServeHTTP, fetchOutcome, hg, hl, hd]

theorem lookup_setHeader (hs : List (String × String)) (k v : String) :
    (setHeader hs k v).lookup k = some v := by
  simp [setHeader, List.lookup]

/-! ## Claim theorems -/

/-- C1: `secretCache.get` at read time `now` returns `(value, true)`
exactly when `now - lastFetch ≤ ttl` and `("", false)` otherwise; for
`ttl > 0`, a `set v` followed by a `get` within `ttl` returns
`(v, true)`, and a `get` after more than `ttl` has elapsed returns
`(_, false)`. -/
theorem get_found_iff_within_ttl (c : secretCache) (v : String)
    (tset now : Int) :
    (secretCache.get c now =
      if now - c.lastFetch ≤ c.ttl then (c.value, true) else ("", false)) ∧
    (0 < c.ttl → now - tset ≤ c.ttl →
      secretCache.get (secretCache.set c v tset) now = (v, true)) ∧
    (c.ttl < now - tset →
      secretCache.get (secretCache.set c v tset) now = ("", false)) := by
  refine ⟨get_eq c now, fun _ h2 => ?_, fun h3 => ?_⟩
  · exact get_of_found { c with value := v, lastFetch := tset } now h2
  · exact get_of_expired { c with value := v, lastFetch := tset } now h3

/-- Witness for C1 at a concrete cache: `ttl = 5`, `set "v"` at time 10,
reads at 12 (within TTL) and 16 (expired). -/
theorem get_found_iff_within_ttl_witness :
    secretCache.get
      (secretCache.set { value := "", lastFetch := 0, ttl := 5 } "v" 10) 12 =
      ("v", true) ∧
    secretCache.get
      (secretCache.set { value := "", lastFetch := 0, ttl := 5 } "v" 10) 16 =
      ("", false) :=
  ⟨(get_found_iff_within_ttl { value := "", lastFetch := 0, ttl := 5 }
      "v" 10 12).2.1 (by decide) (by decide),
   (get_found_iff_within_ttl { value := "", lastFetch := 0, ttl := 5 }
      "v" 10 16).2.2 (by decide)⟩

/-- C2 counterexample: with `ttl = 0`, a `get` at exactly the time of
the preceding `set` (zero elapsed time) still returns `(v, true)`,
because `time.Since(lastFetch) > ttl` is `0 > 0`, which is false.  So a
`set` can make a subsequent `get` report found even when `ttl = 0`. -/
theorem ttl_zero_get_at_set_time_reports_found :
    (secretCache.set { value := "", lastFetch := 0, ttl := 0 } "v" 5).ttl
      = 0 ∧
    secretCache.get
      (secretCache.set { value := "", lastFetch := 0, ttl := 0 } "v" 5) 5 =
      ("v", true) := by
  decide

/-- C2 amended: with `ttl = 0`, `secretCache.get` returns `("", false)`
whenever any strictly positive time has elapsed since `lastFetch`; only
a read at exactly zero elapsed time can still report the value as
found. -/
theorem ttl_zero_get_not_found_after_positive_elapse (c : secretCache)
    (now : Int) (h0 : c.ttl = 0) (h : c.lastFetch < now) :
    secretCache.get c now = ("", false) :=
  get_of_expired c now (by omega)

/-- Witness for the amended C2: `ttl = 0`, value set at time 5, read at
time 6. -/
theorem ttl_zero_get_not_found_after_positive_elapse_witness :
    secretCache.get { value := "v", lastFetch := 5, ttl := 0 } 6 =
      ("", false) :=
  ttl_zero_get_not_found_after_positive_elapse
    { value := "v", lastFetch := 5, ttl := 0 } 6 (by decide) (by decide)

theorem get_snd_false_iff (c : secretCache) (now : Int) :
    (secretCache.get c now).2 = false ↔ c.ttl < now - c.lastFetch := by
  rcases le_or_lt (now - c.lastFetch) c.ttl with h | h
  · rw [get_of_found c now h]
    constructor
    · intro hfalse
      exact absurd hfalse (by simp)
    · intro hlt
      omega
  · rw [get_of_expired c now h]
    simpa using h

/-- C3: on a cache miss, any fetch-path failure (remote error, missing
key, bad base64) yields a generic 500 "Internal Server Error" response
and the next handler is not invoked; on the cache-hit path and on the
successful fetch path the next handler is invoked exactly once with the
header-augmented request; every error response that `ServeHTTP` emits is
the generic 500 and is never accompanied by a next-handler call. -/
theorem serve_error_generic_success_forward (s : SecretHeader) (now : Int)
    (fr : Except String k8sSecret) (req : Request) (v : String) :
    ((secretCache.get s.cache now).2 = false →
      fetchOutcome s.config fr = none →
      SecretHeader.ServeHTTP s now fr req =
        { outcome := .errorResponse 500 "Internal Server Error",
          cache := s.cache, fetchCount := 1, nextCalls := 0 }) ∧
    ((secretCache.get s.cache now).2 = true →
      SecretHeader.ServeHTTP s now fr req =
        { outcome := .forwarded
            { headers := setHeader req.headers s.config.headerName
                (s.config.valuePrefix ++ s.cache.value) },
          cache := s.cache, fetchCount := 0, nextCalls := 1 }) ∧
    ((secretCache.get s.cache now).2 = false →
      fetchOutcome s.config fr = some v →
      SecretHeader.ServeHTTP s now fr req =
        { outcome := .forwarded
            { headers := setHeader req.headers s.config.headerName
                (s.config.valuePrefix ++ v) },
          cache := secretCache.set s.cache v now, fetchCount := 1,
          nextCalls := 1 }) ∧
    (∀ status body,
      (SecretHeader.ServeHTTP s now fr req).outcome =
        .errorResponse status body →
      status = 500 ∧ body = "Internal Server Error" ∧
      (SecretHeader.ServeHTTP s now fr req).nextCalls = 0) ∧
    (∀ req2,
      (SecretHeader.ServeHTTP s now fr req).outcome = .forwarded req2 →
      (SecretHeader.ServeHTTP s now fr req).nextCalls = 1) := by
  refine ⟨?_, ?_, ?_, ?_, ?_⟩
  · intro hmiss hf
    rw [serve_miss s now fr req ((get_snd_false_iff _ _).1 hmiss), hf]
  · intro hhit
    exact serve_hit s now fr req ((get_snd_true_iff _ _).1 hhit)
  · intro hmiss hf
    rw [serve_miss s now fr req ((get_snd_false_iff _ _).1 hmiss), hf]
  · intro status body hout
    rcases le_or_lt (now - s.cache.lastFetch) s.cache.ttl with h | h
    · rw [serve_hit s now fr req h] at hout
      exact absurd hout (by simp)
    · rw [serve_miss s now fr req h] at hout ⊢
      cases hf : fetchOutcome s.config fr with
      | none =>
        rw [hf] at hout
        have h2 : HttpOutcome.errorResponse 500 "Internal Server Error" =
            HttpOutcome.errorResponse status body := hout
        simp only [HttpOutcome.errorResponse.injEq] at h2
        exact ⟨h2.1.symm, h2.2.symm, rfl⟩
      | some w =>
        rw [hf] at hout
        exact absurd hout (by simp)
  · intro req2 hout
    rcases le_or_lt (now - s.cache.lastFetch) s.cache.ttl with h | h
    · rw [serve_hit s now fr req h]
    · rw [serve_miss s now fr req h] at hout ⊢
      cases hf : fetchOutcome s.config fr with
      | none =>
        rw [hf] at hout
        exact absurd hout (by simp)
      | some w =>
        rfl

/-- Witness for C3 at a concrete plugin: expired cache, remote fetch
fails, the result is the generic 500 response, the cache is untouched
and the next handler is not invoked. -/
theorem serve_error_generic_success_forward_witness :
    SecretHeader.ServeHTTP
      { name := "p",
        config := { secretName := "mysecret", secretKey := "token",
                    headerName := "X-Auth-Token", valuePrefix := "",
                    ns := "default", cacheTTL := 300 },
        cache := { value := "", lastFetch := 0, ttl := 300000000000 } }
      400000000000 (.error "connection refused") { headers := [] } =
      { outcome := .errorResponse 500 "Internal Server Error",
        cache := { value := "", lastFetch := 0, ttl := 300000000000 },
        fetchCount := 1, nextCalls := 0 } :=
  (serve_error_generic_success_forward
    { name := "p",
      config := { secretName := "mysecret", secretKey := "token",
                  headerName := "X-Auth-Token", valuePrefix := "",
                  ns := "default", cacheTTL := 300 },
      cache := { value := "", lastFetch := 0, ttl := 300000000000 } }
    400000000000 (.error "connection refused") { headers := [] } "").1
    (by decide) (by rfl)

/-- C4: whenever `ServeHTTP` forwards a request to the next handler —
on the cache-hit path or on the successful fetch path — the configured
header of the forwarded request is exactly `valuePrefix ++ value`, where
`value` is the served (cached or freshly decoded) secret value; with an
empty prefix the header equals the value exactly. -/
theorem forwarded_header_is_prefix_plus_value (s : SecretHeader)
    (now : Int) (fr : Except String k8sSecret) (req req2 : Request)
    (h : (SecretHeader.ServeHTTP s now fr req).outcome =
      .forwarded req2) :
    ∃ v, servedValue s now fr = some v ∧
      req2.headers.lookup s.config.headerName =
        some (s.config.valuePrefix ++ v) ∧
      (s.config.valuePrefix = "" →
        req2.headers.lookup s.config.headerName = some v) := by
  rcases le_or_lt (now - s.cache.lastFetch) s.cache.ttl with hh | hh
  · rw [serve_hit s now fr req hh] at h
    have h2 : HttpOutcome.forwarded
        { headers := setHeader req.headers s.config.headerName
            (s.config.valuePrefix ++ s.cache.value) } =
        HttpOutcome.forwarded req2 := h
    simp only [HttpOutcome.forwarded.injEq] at h2
    subst h2
    refine ⟨s.cache.value, ?_, lookup_setHeader _ _ _, ?_⟩
    · simp [servedValue, get_of_found s.cache now hh]
    · intro hp
      rw [hp]
      exact lookup_setHeader req.headers s.config.headerName
        ("" ++ s.cache.value)
  · rw [serve_miss s now fr req hh] at h
    cases hf : fetchOutcome s.config fr with
    | none =>
      rw [hf] at h
      exact absurd h (by simp)
    | some w =>
      rw [hf] at h
      have h2 : HttpOutcome.forwarded
          { headers := setHeader req.headers s.config.headerName
              (s.config.valuePrefix ++ w) } =
          HttpOutcome.forwarded req2 := h
      simp only [HttpOutcome.forwarded.injEq] at h2
      subst h2
      refine ⟨w, ?_, lookup_setHeader _ _ _, ?_⟩
      · simpa [servedValue, get_of_expired s.cache now hh] using hf
      · intro hp
        rw [hp]
        exact lookup_setHeader req.headers s.config.headerName ("" ++ w)

/-- Witness for C4 at a concrete plugin: valid cached value `"tok"`,
empty prefix; the forwarded request carries `X-Auth-Token: tok`. -/
theorem forwarded_header_is_prefix_plus_value_witness :
    ∃ v, servedValue
        { name := "p",
          config := { secretName := "mysecret", secretKey := "token",
                      headerName := "X-Auth-Token", valuePrefix := "",
                      ns := "default", cacheTTL := 300 },
          cache := { value := "tok", lastFetch := 0, ttl := 300000000000 } }
        5 (.error "unused") = some v ∧
      (Request.mk [("X-Auth-Token", "tok")]).headers.lookup "X-Auth-Token" =
        some ("" ++ v) ∧
      ("" = "" →
        (Request.mk [("X-Auth-Token", "tok")]).headers.lookup "X-Auth-Token" =
          some v) :=
  forwarded_header_is_prefix_plus_value
    { name := "p",
      config := { secretName := "mysecret", secretKey := "token",
                  headerName := "X-Auth-Token", valuePrefix := "",
                  ns := "default", cacheTTL := 300 },
      cache := { value := "tok", lastFetch := 0, ttl := 300000000000 } }
    5 (.error "unused") { headers := [] }
    (Request.mk [("X-Auth-Token", "tok")]) (by decide)

/-- C5 counterexample: 201 lies in the 2xx success range, yet the
status check of `k8sClient.getSecret` fails on it, because the code
compares the status against `http.StatusOK` (200) exactly rather than
against the 2xx range. -/
theorem status_check_rejects_2xx_201 :
    (200 ≤ 201 ∧ 201 < 300) ∧
    getSecretStatusCheck { statusCode := 201, body := "created" } =
      GetSecretStep.statusError 201 "created" := by
  decide

/-- C5 amended: `k8sClient.getSecret` fails at the status check exactly
when the response status differs from 200 (`http.StatusOK`), the error
carrying the response status code and body; a response with status 200
passes the check and proceeds to decoding the JSON body. -/
theorem status_check_fails_iff_not_200 (resp : HttpResponse) :
    getSecretStatusCheck resp =
      if resp.statusCode = 200 then GetSecretStep.decodeBody resp.body
      else GetSecretStep.statusError resp.statusCode resp.body := by
  unfold getSecretStatusCheck
  by_cases h : resp.statusCode = 200
  · rw [if_neg (not_not.mpr h), if_pos h]
  · rw [if_pos h, if_neg h]

/-- C6: `New` rejects a config whose `secretName`, `secretKey` or
`headerName` is empty with the corresponding construction error —
regardless of whether the Kubernetes client could be created, since the
validation comes before every other construction step — and no plugin
handler is ever produced for such a config. -/
theorem new_rejects_missing_required_fields (cfg : Config) (name : String)
    (cr : Except String Unit) :
    (cfg.secretName = "" →
      New cfg name cr = .error "secretName cannot be empty") ∧
    (cfg.secretName ≠ "" → cfg.secretKey = "" →
      New cfg name cr = .error "secretKey cannot be empty") ∧
    (cfg.secretName ≠ "" → cfg.secretKey ≠ "" → cfg.headerName = "" →
      New cfg name cr = .error "headerName cannot be empty") ∧
    ((cfg.secretName = "" ∨ cfg.secretKey = "" ∨ cfg.headerName = "") →
      ∀ sh, New cfg name cr ≠ .ok sh) := by
  have h1 : cfg.secretName = "" →
      New cfg name cr = .error "secretName cannot be empty" := by
    intro h
    unfold New
    rw [if_pos h]
  have h2 : cfg.secretName ≠ "" → cfg.secretKey = "" →
      New cfg name cr = .error "secretKey cannot be empty" := by
    intro hn h
    unfold New
    rw [if_neg hn, if_pos h]
  have h3 : cfg.secretName ≠ "" → cfg.secretKey ≠ "" →
      cfg.headerName = "" →
      New cfg name cr = .error "headerName cannot be empty" := by
    intro hn hk h
    unfold New
    rw [if_neg hn, if_neg hk, if_pos h]
  refine ⟨h1, h2, h3, ?_⟩
  intro hd sh
  rcases hd with h | h | h
  · rw [h1 h]
    simp
  · by_cases hn : cfg.secretName = ""
    · rw [h1 hn]
      simp
    · rw [h2 hn h]
      simp
  · by_cases hn : cfg.secretName = ""
    · rw [h1 hn]
      simp
    · by_cases hk : cfg.secretKey = ""
      · rw [h2 hn hk]
        simp
      · rw [h3 hn hk h]
        simp

/-- Witness for C6: a config with an empty `secretName` is rejected with
the corresponding error. -/
theorem new_rejects_missing_required_fields_witness :
    New { secretName := "", secretKey := "token",
          headerName := "X-Auth-Token", valuePrefix := "", ns := "",
          cacheTTL := 300 } "p" (.ok ()) =
      .error "secretName cannot be empty" :=
  (new_rejects_missing_required_fields
    { secretName := "", secretKey := "token",
      headerName := "X-Auth-Token", valuePrefix := "", ns := "",
      cacheTTL := 300 } "p" (.ok ())).1 rfl

/-- C7: a cache hit performs no remote fetch; and in the two-request
scenario with TTL = 300 s — the first request misses and its fetch and
decode succeed, the second arrives within the TTL — exactly one remote
fetch happens in total and both requests are forwarded with the
identical header value. -/
theorem cache_hit_no_fetch_single_fetch_two_requests (s : SecretHeader)
    (now now2 : Int) (fr fr2 : Except String k8sSecret)
    (req req2 : Request) (v : String) :
    ((secretCache.get s.cache now).2 = true →
      (SecretHeader.ServeHTTP s now fr req).fetchCount = 0) ∧
    (s.cache.ttl = 300 * 1000000000 →
      (secretCache.get s.cache now).2 = false →
      fetchOutcome s.config fr = some v →
      now2 - now ≤ s.cache.ttl →
      (SecretHeader.ServeHTTP s now fr req).fetchCount +
        (SecretHeader.ServeHTTP
          { s with cache := (SecretHeader.ServeHTTP s now fr req).cache }
          now2 fr2 req2).fetchCount = 1 ∧
      servedHeader (SecretHeader.ServeHTTP s now fr req)
        s.config.headerName = some (s.config.valuePrefix ++ v) ∧
      servedHeader (SecretHeader.ServeHTTP
          { s with cache := (SecretHeader.ServeHTTP s now fr req).cache }
          now2 fr2 req2) s.config.headerName =
        some (s.config.valuePrefix ++ v)) := by
  constructor
  · intro hhit
    rw [serve_hit s now fr req ((get_snd_true_iff _ _).1 hhit)]
  · intro httl hmiss hf hin
    have h1 : SecretHeader.ServeHTTP s now fr req =
        { outcome := .forwarded
            { headers := setHeader req.headers s.config.headerName
                (s.config.valuePrefix ++ v) },
          cache := secretCache.set s.cache v now, fetchCount := 1,
          nextCalls := 1 } := by
      rw [serve_miss s now fr req ((get_snd_false_iff _ _).1 hmiss), hf]
    rw [h1]
    have h2 := serve_hit { s with cache := secretCache.set s.cache v now }
      now2 fr2 req2 (by simp only [secretCache.set]; omega)
    rw [h2]
    refine ⟨rfl, ?_, ?_⟩
    · simp [servedHeader, lookup_setHeader]
    · simp [servedHeader, lookup_setHeader, secretCache.set]

/-- Witness for C7: concrete two-request run with TTL = 300 s; the
first request at t = 400 s misses and fetches `token = "dg=="` (the
base64 of `"v"`), the second at t = 401 s hits the cache; exactly one
fetch happens and both forwarded requests carry `X-Auth-Token: v`. -/
theorem cache_hit_no_fetch_single_fetch_two_requests_witness :
    (SecretHeader.ServeHTTP samplePlugin 400000000000 sampleFetch
        { headers := [] }).fetchCount +
      (SecretHeader.ServeHTTP
        { samplePlugin with cache :=
            (SecretHeader.ServeHTTP samplePlugin 400000000000 sampleFetch
              { headers := [] }).cache }
        401000000000 (.error "unused") { headers := [] }).fetchCount = 1 ∧
    servedHeader (SecretHeader.ServeHTTP samplePlugin 400000000000
        sampleFetch { headers := [] }) "X-Auth-Token" = some "v" ∧
    servedHeader (SecretHeader.ServeHTTP
        { samplePlugin with cache :=
            (SecretHeader.ServeHTTP samplePlugin 400000000000 sampleFetch
              { headers := [] }).cache }
        401000000000 (.error "unused") { headers := [] }) "X-Auth-Token" =
      some "v" :=
  (cache_hit_no_fetch_single_fetch_two_requests samplePlugin
    400000000000 401000000000 sampleFetch (.error "unused")
    { headers := [] } { headers := [] } "v").2
    (by decide) (by decide) (by rfl) (by decide)

/-- C8: `secretCache.set v` at write time `t` replaces the stored value
with `v` and resets `lastFetch` to `t` while leaving `ttl` unchanged;
and no `ServeHTTP` call — hence neither the `get` nor any `set` it
performs — ever changes the cache's `ttl`, which stays as fixed at
construction. -/
theorem set_replaces_value_resets_time_keeps_ttl (c : secretCache)
    (v : String) (t : Int) (s : SecretHeader) (now : Int)
    (fr : Except String k8sSecret) (req : Request) :
    secretCache.set c v t = { value := v, lastFetch := t, ttl := c.ttl } ∧
    (SecretHeader.ServeHTTP s now fr req).cache.ttl = s.cache.ttl := by
  refine ⟨rfl, ?_⟩
  rcases le_or_lt (now - s.cache.lastFetch) s.cache.ttl with h | h
  · rw [serve_hit s now fr req h]
  · rw [serve_miss s now fr req h]
    cases hf : fetchOutcome s.config fr with
    | none => rfl
    | some w => rfl

/-- C9: on every failing path of `ServeHTTP` — remote fetch error,
configured key absent, base64 decode failure — the cache is left
unchanged; equivalently, every error response leaves the cache as it
was, and the cache is written (via `set`) only when the fetch, the key
lookup and the decode all succeeded. -/
theorem error_paths_leave_cache_unchanged (s : SecretHeader) (now : Int)
    (fr : Except String k8sSecret) (req : Request) (v : String) :
    ((secretCache.get s.cache now).2 = false →
      fetchOutcome s.config fr = none →
      (SecretHeader.ServeHTTP s now fr req).cache = s.cache) ∧
    (∀ status body,
      (SecretHeader.ServeHTTP s now fr req).outcome =
        .errorResponse status body →
      (SecretHeader.ServeHTTP s now fr req).cache = s.cache) ∧
    ((secretCache.get s.cache now).2 = false →
      fetchOutcome s.config fr = some v →
      (SecretHeader.ServeHTTP s now fr req).cache =
        secretCache.set s.cache v now) := by
  refine ⟨?_, ?_, ?_⟩
  · intro hmiss hf
    rw [serve_miss s now fr req ((get_snd_false_iff _ _).1 hmiss), hf]
  · intro status body hout
    rcases le_or_lt (now - s.cache.lastFetch) s.cache.ttl with h | h
    · rw [serve_hit s now fr req h]
    · rw [serve_miss s now fr req h] at hout ⊢
      cases hf : fetchOutcome s.config fr with
      | none => rfl
      | some w =>
        rw [hf] at hout
        exact absurd hout (by simp)
  · intro hmiss hf
    rw [serve_miss s now fr req ((get_snd_false_iff _ _).1 hmiss), hf]

/-- Witness for C9: concrete failing fetch on a cache miss leaves the
cache exactly as it was. -/
theorem error_paths_leave_cache_unchanged_witness :
    (SecretHeader.ServeHTTP samplePlugin 400000000000 (.error "boom")
      { headers := [] }).cache = samplePlugin.cache :=
  (error_paths_leave_cache_unchanged samplePlugin 400000000000
    (.error "boom") { headers := [] } "").1 (by decide) rfl

/-- C10: `New` performs no validation of `cacheTTL` — any value,
negative included, is accepted (when the required string fields are
non-empty and the client is created) and lands in the cache as
`cacheTTL * 1 s` — and with a negative `ttl` every `get` after any
positive elapsed time reports not-found, so a negative TTL behaves like
caching disabled rather than a construction error. -/
theorem new_accepts_any_ttl_negative_ttl_disables_caching (cfg : Config)
    (name : String) (c : secretCache) (now : Int)
    (h1 : cfg.secretName ≠ "") (h2 : cfg.secretKey ≠ "")
    (h3 : cfg.headerName ≠ "") :
    (∃ sh, New cfg name (.ok ()) = .ok sh ∧
      sh.cache.ttl = cfg.cacheTTL * 1000000000) ∧
    (c.ttl < 0 → c.lastFetch < now →
      secretCache.get c now = ("", false)) := by
  constructor
  · unfold New
    rw [if_neg h1, if_neg h2, if_neg h3]
    by_cases hns : cfg.ns = ""
    · rw [if_pos hns]
      exact ⟨_, rfl, rfl⟩
    · rw [if_neg hns]
      exact ⟨_, rfl, rfl⟩
  · intro ht hl
    exact get_of_expired c now (by omega)

/-- Witness for C10: a config with `cacheTTL = -5` is accepted by `New`,
and a cache with negative `ttl` reports not-found one nanosecond after
its last write. -/
theorem new_accepts_any_ttl_negative_ttl_disables_caching_witness :
    (∃ sh, New (Config.mk "mysecret" "token" "X-Auth-Token" "" "" (-5))
        "p" (.ok ()) = .ok sh ∧
      sh.cache.ttl = (-5) * 1000000000) ∧
    secretCache.get (secretCache.mk "v" 0 (-5000000000)) 1 =
      ("", false) :=
  have h := new_accepts_any_ttl_negative_ttl_disables_caching
    (Config.mk "mysecret" "token" "X-Auth-Token" "" "" (-5)) "p"
    (secretCache.mk "v" 0 (-5000000000)) 1
    (by decide) (by decide) (by decide)
  ⟨h.1, h.2 (by decide) (by decide)⟩
